import Mathlib

/-!
Verification of `scripts/generate_pptx.py`, a script that builds a fixed
10-slide presentation from a configuration mapping, a palette name and an
optional screenshots directory.

Shallow embedding conventions:
* Geometry is tracked in rational numbers (the script works in inches/points
  via `Inches`/`Pt` wrappers; the wrappers are dropped and the raw numbers
  kept, Python float arithmetic is modelled by exact `ℚ` arithmetic).
* A pptx shape is modelled by its kind (textbox / rounded rectangle /
  picture), its frame `x, y, w, h`, its fill, line colour, line width, dash
  flag, and the list of text paragraphs placed on it.  Text-frame details
  that no claim touches (alignment, word wrap, line spacing, vertical
  anchor) are not modelled.  A paragraph keeps its text, font size in
  points, bold flag and font colour.
* A slide is the list of shapes in creation order plus its speaker notes.
* The screenshots directory is modelled by the list of file names it
  contains (`Env.files = none` covers both "no directory given" and
  "directory does not exist", the two cases in which `find_screenshot`
  bails out early); `Env.imgSize` gives the pixel dimensions PIL would
  report for a file.  Returned paths drop the constant directory prefix
  that the script prepends via `screenshots_path / name`.
* `python-pptx` object mutation is replaced by returning the list of
  created shapes; `print` calls and `prs.save` are not modelled.
-/

/-- Red/green/blue colour triple, modelling `pptx.dml.color.RGBColor`. -/
structure RGB where
  r : Nat
  g : Nat
  b : Nat
deriving DecidableEq

/-- One text paragraph: text, font size (pt), bold flag, font colour. -/
structure Para where
  text : String
  size : ℚ
  bold : Bool
  color : RGB
deriving DecidableEq

/-- Kind of a drawable shape. -/
inductive SKind where
  | textbox
  | roundedRect
  | picture (path : String)
deriving DecidableEq

/-- A placed shape: kind, frame, paragraphs, fill, line colour/width, dash. -/
structure Shape where
  kind : SKind
  x : ℚ
  y : ℚ
  w : ℚ
  h : ℚ
  paras : List Para
  fill : Option RGB
  lineColor : Option RGB
  lineWidth : Option ℚ
  dashed : Bool
deriving DecidableEq

/-- Textbox shape constructor (`slide.shapes.add_textbox` plus its text). -/
def tbox (x y w h : ℚ) (ps : List Para) : Shape :=
  ⟨SKind.textbox, x, y, w, h, ps, none, none, none, false⟩

/-- Rounded-rectangle shape constructor (`MSO_SHAPE.ROUNDED_RECTANGLE`). -/
def rrect (x y w h : ℚ) (fill lineColor : Option RGB) (lineWidth : Option ℚ)
    (dashed : Bool) (ps : List Para) : Shape :=
  ⟨SKind.roundedRect, x, y, w, h, ps, fill, lineColor, lineWidth, dashed⟩

/-- Picture shape constructor (`slide.shapes.add_picture`). -/
def pict (path : String) (x y w h : ℚ) : Shape :=
  ⟨SKind.picture path, x, y, w, h, [], none, none, none, false⟩

/-- Paragraph constructor. -/
def para (t : String) (size : ℚ) (bold : Bool) (c : RGB) : Para :=
  ⟨t, size, bold, c⟩

/-- A slide: its shapes in creation order and its speaker notes. -/
structure Slide where
  shapes : List Shape
  notes : String
deriving DecidableEq

/-- Base colour roles, the keys every slide builder reads from `COLORS`. -/
structure Palette where
  primary : RGB
  primary_dark : RGB
  secondary : RGB
  accent : RGB
  warning : RGB
  danger : RGB
  success : RGB
  purple : RGB
  white : RGB
  light_gray : RGB
  muted : RGB
  border : RGB
deriving DecidableEq

/-- The default palette of `PALETTES`. -/
def defaultPalette : Palette :=
  ⟨⟨0x00, 0x66, 0xCC⟩, ⟨0x00, 0x52, 0xA3⟩, ⟨0x1E, 0x29, 0x3B⟩,
   ⟨0x10, 0xB9, 0x81⟩, ⟨0xD9, 0x77, 0x06⟩, ⟨0xDC, 0x26, 0x26⟩,
   ⟨0x16, 0xA3, 0x4A⟩, ⟨0x8B, 0x5C, 0xF6⟩, ⟨0xFF, 0xFF, 0xFF⟩,
   ⟨0xF8, 0xFA, 0xFC⟩, ⟨0x64, 0x74, 0x8B⟩, ⟨0xE2, 0xE8, 0xF0⟩⟩

/-- Base part of the iceberg palette (its values repeat the default). -/
def icebergBase : Palette :=
  ⟨⟨0x00, 0x66, 0xCC⟩, ⟨0x00, 0x52, 0xA3⟩, ⟨0x1E, 0x29, 0x3B⟩,
   ⟨0x10, 0xB9, 0x81⟩, ⟨0xD9, 0x77, 0x06⟩, ⟨0xDC, 0x26, 0x26⟩,
   ⟨0x16, 0xA3, 0x4A⟩, ⟨0x8B, 0x5C, 0xF6⟩, ⟨0xFF, 0xFF, 0xFF⟩,
   ⟨0xF8, 0xFA, 0xFC⟩, ⟨0x64, 0x74, 0x8B⟩, ⟨0xE2, 0xE8, 0xF0⟩⟩

/-- Iceberg-specific storytelling colours of the iceberg `PALETTES` entry;
the problem slide reads them through `ICE`, the iceberg entry itself,
regardless of the palette chosen for the deck, so they are kept as a
separate record. -/
structure IcebergExtra where
  sky : RGB
  sky_mid : RGB
  ocean : RGB
  ocean_deep : RGB
  text_light : RGB
  text_sky : RGB
deriving DecidableEq

/-- The extra keys of the iceberg `PALETTES` entry. -/
def icebergExtra : IcebergExtra :=
  ⟨⟨0xE0, 0xF2, 0xFE⟩, ⟨0xBA, 0xE6, 0xFD⟩, ⟨0x02, 0x84, 0xC7⟩,
   ⟨0x0C, 0x4A, 0x6E⟩, ⟨0xFF, 0xFF, 0xFF⟩, ⟨0x03, 0x69, 0xA1⟩⟩

/-- The `PALETTES` dictionary, as a lookup by palette name. -/
def PALETTES : String → Option Palette := fun s =>
  if s == "default" then some defaultPalette
  else if s == "iceberg" then some icebergBase
  else none

/-- The `SCREENSHOT_SLIDES` dictionary: slide number to expected pattern. -/
def SCREENSHOT_SLIDES : Nat → Option String := fun n =>
  if n == 4 then some "slide_04_architecture"
  else if n == 5 then some "slide_05_demo"
  else if n == 6 then some "slide_06_demo_edge"
  else if n == 7 then some "slide_07_proof"
  else if n == 8 then some "slide_08_audit"
  else none

/-! ### String machinery for `find_screenshot`

Python string comparison and `sorted` order file names by Unicode code
point, lexicographically; `str.upper()` upper-cases each character.  The
functions below realise those operations on the underlying character
lists (the built-in `String` order and `String.toUpper` of Lean are
avoided because they do not reduce inside the kernel). -/

/-- Lexicographic (by code point) non-strict comparison of char lists,
the order `sorted` uses on file names within one directory. -/
def charsLe : List Char → List Char → Bool
  | [], _ => true
  | _ :: _, [] => false
  | a :: as, b :: bs =>
    if a.val < b.val then true
    else if b.val < a.val then false
    else charsLe as bs

/-- String comparison used when the script sorts glob matches. -/
def strLeB (a b : String) : Bool := charsLe a.data b.data

/-- Python `str.upper()` (character-wise upper-casing; the script only
applies it to the ASCII extensions `.png`, `.jpg`, `.jpeg`). -/
def strUpper (s : String) : String := String.mk (s.data.map Char.toUpper)

/-- Insert a name into a sorted list of names (kept in `strLeB` order). -/
def insertSorted (a : String) : List String → List String
  | [] => [a]
  | b :: bs => if strLeB a b then a :: b :: bs else b :: insertSorted a bs

/-- Insertion sort by `strLeB`, modelling Python `sorted` on the file
names of one directory (`sorted` orders paths with a common parent by the
file-name string, a total order, so any correct sort yields the same
list; insertion sort is used because it reduces inside the kernel). -/
def sortStrs : List String → List String
  | [] => []
  | a :: as => insertSorted a (sortStrs as)

/-- Boolean prefix test on char lists. -/
def isPrefixL : List Char → List Char → Bool
  | [], _ => true
  | _ :: _, [] => false
  | a :: as, b :: bs => a == b && isPrefixL as bs

/-- Boolean substring test on char lists. -/
def isInfixL (needle : List Char) : List Char → Bool
  | [] => isPrefixL needle []
  | c :: rest => isPrefixL needle (c :: rest) || isInfixL needle rest

/-- Boolean suffix test on char lists. -/
def isSuffixL (s l : List Char) : Bool := isPrefixL s.reverse l.reverse

/-- Whether file name `f` matches the glob pattern `*mid*ext` (pathlib
compiles this pattern to the regex `.*mid.*ext` and full-matches it, so
`f` matches exactly when `f = a ++ mid ++ b ++ ext` for some `a`, `b`). -/
def globMatch (mid ext f : String) : Bool :=
  let fl := f.data
  let el := ext.data
  isSuffixL el fl && isInfixL mid.data (fl.take (fl.length - el.length))

/-- Python two-digit zero-padded decimal rendering (format spec 02d). -/
def pad2 (n : Nat) : String := if n < 10 then "0" ++ toString n else toString n

/-- Python truthiness of the optional `slide_num` argument (`None` and `0`
are falsy). -/
def numTruthy : Option Nat → Bool
  | none => false
  | some n => n != 0

/-! ### `find_screenshot` -/

/-- Extension list of the glob phase: `.png`, `.jpg`, `.jpeg`. -/
def exts3 : List String := [".png", ".jpg", ".jpeg"]

/-- Extension list of the exact-name phase
(`.png`, `.jpg`, `.jpeg` and their upper-case variants). -/
def exts6 : List String := [".png", ".jpg", ".jpeg", ".PNG", ".JPG", ".JPEG"]

/-- One glob attempt of `find_screenshot`: collect the matches of
`*mid*ext` and of `*mid*EXT` over the directory listing, and if any exist
return the first in sorted order (`str(sorted(matches)[0])`). -/
def globAttempt (d : List String) (mid ext : String) : Option String :=
  let ms := d.filter (fun f => globMatch mid ext f)
       ++ d.filter (fun f => globMatch mid (strUpper ext) f)
  if ms.isEmpty then none else (sortStrs ms).head?

/-- One exact-name attempt of `find_screenshot`: return `name ++ ext` when
that file exists in the directory. -/
def exactAttempt (d : List String) (nm ext : String) : Option String :=
  if d.contains (nm ++ ext) then some (nm ++ ext) else none

/-- The `possible_names` list: the given slide name, then (when
`slide_num` is truthy) `slide_NN`, `Slide_NN`, `NN`, `N`. -/
def possible_names (slide_name : String) (slide_num : Option Nat) : List String :=
  slide_name :: (if numTruthy slide_num then
    ["slide_" ++ pad2 (slide_num.getD 0), "Slide_" ++ pad2 (slide_num.getD 0),
     pad2 (slide_num.getD 0), toString (slide_num.getD 0)]
  else [])

/-- First `some` result of `f` over a list, modelling an early `return`
from nested `for` loops. -/
def firstSome {α β : Type} (f : α → Option β) : List α → Option β
  | [] => none
  | a :: as =>
    match f a with
    | some b => some b
    | none => firstSome f as

/-- The `find_screenshot` helper.  `dirFiles = none` covers the two early
exits (`screenshots_dir` falsy, or the directory does not exist); otherwise
`dirFiles` is the directory listing.  The glob phase runs only for a truthy
slide number and tries the zero-padded then the plain number pattern, each
against `.png`, `.jpg`, `.jpeg` together with their upper-case variants;
the exact-name phase then tries `possible_names` against the six
extensions.  Returned names drop the constant directory prefix. -/
def find_screenshot (dirFiles : Option (List String)) (slide_name : String)
    (slide_num : Option Nat) : Option String :=
  match dirFiles with
  | none => none
  | some files =>
    let globRes := if numTruthy slide_num then
        firstSome (fun pe => globAttempt files pe.1 pe.2)
          (([pad2 (slide_num.getD 0), toString (slide_num.getD 0)]).flatMap
            (fun p => exts3.map (fun e => (p, e))))
      else none
    match globRes with
    | some r => some r
    | none =>
      firstSome (fun ne => exactAttempt files ne.1 ne.2)
        ((possible_names slide_name slide_num).flatMap
          (fun nm => exts6.map (fun e => (nm, e))))

/-! ### Configuration, environment, screenshot placement -/

/-- One entry of `iceberg_below_items`, a dict with a title and a desc. -/
structure IceItem where
  title : String
  desc : String
deriving DecidableEq

/-- The configuration mapping.  Every key the script reads via
`config.get(key, default)` becomes an optional field; `none` models the
key being absent, so an empty mapping is the all-`none` record. -/
structure Config where
  headline_part1 : Option String
  headline_part2 : Option String
  product_name : Option String
  tagline : Option String
  pillars : Option (List (String × String))
  problem_title : Option String
  requirements : Option (List (String × String))
  iceberg_above_label : Option String
  iceberg_above_value : Option String
  iceberg_above_subtitle : Option String
  iceberg_below_label : Option String
  iceberg_below_items : Option (List IceItem)
  scale_title : Option String
  scale_subtitle : Option String
  stats : Option (List (String × String × RGB × Bool))
  scale_callout : Option String
  architecture_title : Option String
  demo_good_title : Option String
  demo_edge_title : Option String
  proof_title : Option String
  metrics : Option (List (String × String))
  audit_title : Option String
  roadmap_title : Option String
  roadmap_items : Option (List (String × String × String × RGB))
  gaps : Option (List (String × String × String))
  ask_title : Option String
  ask_1_title : Option String
  ask_1_desc : Option String
  ask_2_title : Option String
  ask_2_desc : Option String
deriving DecidableEq

/-- The empty configuration mapping (`{}`). -/
def emptyConfig : Config :=
  ⟨none, none, none, none, none, none, none, none, none, none,
   none, none, none, none, none, none, none, none, none, none,
   none, none, none, none, none, none, none, none, none, none⟩

/-- Filesystem environment of a run: the screenshots directory listing
(`none` when no directory is given or it does not exist) and the pixel
dimensions PIL reports for an image file. -/
structure Env where
  files : Option (List String)
  imgSize : String → Nat × Nat

/-- Python truthiness of the optional `screenshot_path` argument. -/
def optStrTruthy : Option String → Bool
  | none => false
  | some s => s != ""

/-- Whether `Path(p).exists()` holds for a name in the screenshots
directory. -/
def Env.pathExists (env : Env) (p : String) : Bool :=
  (env.files.getD []).contains p

/-- The `add_screenshot` helper: when the path is truthy and the file
exists, fit the image inside `max_width × max_height` preserving its
aspect ratio (height-constrained when `max_width / max_height` exceeds the
aspect ratio, else width-constrained), centre it horizontally in the
`max_width` area, and emit the picture; returns the created shapes
together with the `True`/`False` result. -/
def add_screenshot (env : Env) (screenshot_path : Option String)
    (x y max_width max_height : ℚ) : List Shape × Bool :=
  if optStrTruthy screenshot_path && env.pathExists (screenshot_path.getD "") then
    let path := screenshot_path.getD ""
    let img_width : ℚ := (env.imgSize path).1
    let img_height : ℚ := (env.imgSize path).2
    let aspect_ratio := img_width / img_height
    let wh := if max_width / max_height > aspect_ratio
      then (max_height * aspect_ratio, max_height)
      else (max_width, max_width / aspect_ratio)
    let x_centered := x + (max_width - wh.1) / 2
    ([pict path x_centered y wh.1 wh.2], true)
  else ([], false)

/-- The `add_screenshot_placeholder` helper: a dashed rounded rectangle
with the bracketed label; the only dashed shape the script ever creates. -/
def add_screenshot_placeholder (x y w h : ℚ) (label : String)
    (pal : Palette) : Shape :=
  rrect x y w h (some pal.light_gray) (some pal.border) (some 2) true
    [para ("[" ++ label ++ "]") 16 false pal.muted]

/-! ### Shared slide helpers -/

/-- The `add_context_label` helper (upper-cased label at the top left). -/
def add_context_label (text : String) (color : Option RGB)
    (pal : Palette) : Shape :=
  tbox 0.75 0.6 3 0.4 [para (strUpper text) 12 true (color.getD pal.primary)]

/-- The `add_action_title` helper. -/
def add_action_title (text : String) (y : ℚ) (pal : Palette) : Shape :=
  tbox 0.75 y 11.8 1.2 [para text 28 true pal.secondary]

/-- The `add_card` helper: card rectangle, title textbox, content textbox. -/
def add_card (x y w h : ℚ) (title content icon : String)
    (title_color border_color bg_color : Option RGB)
    (pal : Palette) : List Shape :=
  [rrect x y w h (some (bg_color.getD pal.white))
     (some (border_color.getD pal.border)) (some 1) false [],
   tbox (x + 0.2) (y + 0.2) (w - 0.4) 0.5
     [para (if icon == "" then title else icon ++ "  " ++ title) 14 true
        (title_color.getD pal.primary)],
   tbox (x + 0.2) (y + 0.2 + 0.5) (w - 0.4) (h - 0.8)
     [para content 12 false pal.muted]]

/-! ### Per-slide loops -/

/-- Feature-pillar loop of slide 1: a card per pillar, `pillar_x`
starting at the given x and advancing by `3.9`. -/
def pillarRow (pal : Palette) : List (String × String) → ℚ → List Shape
  | [], _ => []
  | (title, desc) :: rest, pillar_x =>
    add_card pillar_x 4.5 3.6 1.8 title desc "" none none none pal
      ++ pillarRow pal rest (pillar_x + 3.9)

/-- Requirements loop of slide 2: one textbox per requirement, `req_y`
advancing by `0.8`. -/
def reqRow (pal : Palette) : List (String × String) → ℚ → List Shape
  | [], _ => []
  | (title, desc) :: rest, req_y =>
    tbox 0.75 req_y 5 0.6
      [para ("  " ++ title) 14 true pal.secondary,
       para ("     " ++ desc) 12 false pal.muted]
      :: reqRow pal rest (req_y + 0.8)

/-- Below-water item loop of slide 2: one textbox per item inside the
ocean box (`iceberg_x = 6.3`, `iceberg_width = 5.7`), `item_y` advancing
by `0.6`. -/
def icebergItems : List IceItem → ℚ → List Shape
  | [], _ => []
  | item :: rest, item_y =>
    tbox (6.3 + 0.3) item_y (5.7 - 0.6) 0.55
      [para item.title 12 true icebergExtra.text_light,
       para item.desc 10 false icebergExtra.sky_mid]
      :: icebergItems rest (item_y + 0.6)

/-- Stat-card loop of slide 3: per stat a card rectangle, a number
textbox and a label textbox (`card_y = 2.8`, `card_width = 3.7`,
`card_height = 2.2`), `card_x` advancing by `card_width + gap = 3.7 + 0.3`. -/
def statsRow (pal : Palette) :
    List (String × String × RGB × Bool) → ℚ → List Shape
  | [], _ => []
  | (value, label, color, is_filled) :: rest, card_x =>
    (if is_filled then rrect card_x 2.8 3.7 2.2 (some color) none none false []
     else rrect card_x 2.8 3.7 2.2 (some pal.white) (some pal.border)
       (some 2) false [])
      :: tbox card_x (2.8 + 0.4) 3.7 1
           [para value 56 true (if is_filled then pal.white else color)]
      :: tbox card_x (2.8 + 1.5) 3.7 0.5
           [para label 14 false
             (if is_filled then ⟨0xA0, 0xC4, 0xE8⟩ else pal.muted)]
      :: statsRow pal rest (card_x + (3.7 + 0.3))

/-- Metric-card fallback loop of slide 7 (runs when no screenshot was
placed): per metric a card plus a number textbox, `card_x` advancing by
`3.9`. -/
def metricCards (pal : Palette) : List (String × String) → ℚ → List Shape
  | [], _ => []
  | (value, label) :: rest, card_x =>
    add_card card_x 2.8 3.6 2.0 ("✓ " ++ label) "" ""
        (some pal.accent) none none pal
      ++ (tbox (card_x + 0.2) 3.4 3.2 0.8 [para value 36 true pal.secondary]
          :: metricCards pal rest (card_x + 3.9))

/-- Progress-item loop of slide 9, `item_y` advancing by `0.8`. -/
def roadmapRow (pal : Palette) :
    List (String × String × String × RGB) → ℚ → List Shape
  | [], _ => []
  | (num, title, desc, color) :: rest, item_y =>
    tbox 1 item_y 4.8 0.7
      [para (num ++ "   " ++ title) 13 true color,
       para ("     " ++ desc) 11 false pal.muted]
      :: roadmapRow pal rest (item_y + 0.8)

/-- Honest-gaps loop of slide 9, `gap_y` advancing by `0.8`. -/
def gapsRow (pal : Palette) :
    List (String × String × String) → ℚ → List Shape
  | [], _ => []
  | (num, title, desc) :: rest, gap_y =>
    tbox 6.65 gap_y 4.8 0.7
      [para (num ++ "   " ++ title) 13 true pal.warning,
       para ("     " ++ desc) 11 false pal.muted]
      :: gapsRow pal rest (gap_y + 0.8)

/-! ### Slide builders

Each `slide_k_*` function mirrors the corresponding builder: it returns
the slide whose shape list records the `add_*` calls in source order and
whose notes record the `add_speaker_notes` text. -/

/-- Slide 1: title. -/
def slide_1_title (cfg : Config) (pal : Palette) : Slide :=
  { shapes :=
      [tbox 0.75 1.5 6 1.5
         [para (cfg.headline_part1.getD "Your industry needs a") 36 true
            pal.secondary,
          para (cfg.headline_part2.getD "better solution") 36 true
            pal.primary],
       rrect 7.5 1.2 4.5 2.5 (some pal.primary) none none false [],
       tbox 7.5 1.6 4.5 1.2
         [para (cfg.product_name.getD "Your Product") 48 true pal.white],
       tbox 7.5 2.9 4.5 0.5
         [para (cfg.tagline.getD "YOUR TAGLINE HERE") 11 false
            ⟨0xA0, 0xC4, 0xE8⟩]]
      ++ pillarRow pal
          (cfg.pillars.getD
            [("Feature 1", "Brief description"),
             ("Feature 2", "Brief description"),
             ("Feature 3", "Brief description")]) 0.75,
    notes := "TIMING: 30 seconds\nSAY: Lead with your value prop\nTRANSITION: Click next to show the problem" }

/-- Slide 2: the problem (iceberg design). -/
def slide_2_problem_iceberg (cfg : Config) (pal : Palette) : Slide :=
  { shapes :=
      [add_context_label "The Problem" (some pal.danger) pal,
       add_action_title
         (cfg.problem_title.getD "State the core problem your audience faces")
         1.0 pal]
      ++ reqRow pal
          (cfg.requirements.getD
            [("Requirement 1", "Why this matters"),
             ("Requirement 2", "Why this matters"),
             ("Requirement 3", "Why this matters")]) 2.6
      ++ [rrect 6.3 2.4 5.7 1.8 (some icebergExtra.sky) none none false [],
          tbox 6.3 2.5 5.7 0.3
            [para (strUpper (cfg.iceberg_above_label.getD "THE VISIBLE COST"))
               10 true icebergExtra.text_sky],
          tbox 6.3 2.85 5.7 0.8
            [para (cfg.iceberg_above_value.getD "$X.XM") 40 true
               ⟨0xEA, 0x58, 0x0C⟩],
          tbox 6.3 3.6 5.7 0.3
            [para (cfg.iceberg_above_subtitle.getD
                "...but that\x27s just the start") 11 false pal.muted],
          rrect 6.3 4.2 5.7 2.6 (some icebergExtra.ocean_deep) none none
            false [],
          tbox 6.3 4.35 5.7 0.3
            [para (strUpper (cfg.iceberg_below_label.getD "THE HIDDEN DAMAGE"))
               10 true icebergExtra.sky_mid]]
      ++ icebergItems
          ((cfg.iceberg_below_items.getD
            [⟨"Hidden cost 1", "Description"⟩,
             ⟨"Hidden cost 2", "Description"⟩,
             ⟨"Hidden cost 3", "Description"⟩]).take 3) 4.7,
    notes := "TIMING: 45 seconds\nSAY: The visible cost is just the tip of the iceberg.\nTRANSITION: \"Here\x27s the scale we\x27re dealing with...\" " }

/-- Slide 3: scale. -/
def slide_3_scale (cfg : Config) (pal : Palette) : Slide :=
  { shapes :=
      [add_context_label "The Scale" none pal,
       add_action_title (cfg.scale_title.getD "Show the magnitude of the problem")
         1.0 pal,
       tbox 0.75 1.9 11 0.5
         [para (cfg.scale_subtitle.getD "Real data at production scale") 16
            false pal.muted]]
      ++ statsRow pal
          (cfg.stats.getD
            [("100+", "metric 1", pal.primary, true),
             ("50K", "metric 2", pal.accent, false),
             ("8", "metric 3", pal.purple, false)]) 0.75
      ++ [rrect 0.75 5.3 11.5 0.9 (some ⟨0xFF, 0xFB, 0xEB⟩)
            (some ⟨0xFC, 0xD3, 0x4D⟩) (some 1) false [],
          tbox 1 5.5 11 0.6
            [para (cfg.scale_callout.getD
                "Example callout that emphasizes the scale") 14 false
               ⟨0x92, 0x40, 0x0E⟩]],
    notes := "TIMING: 30 seconds\nSAY: Emphasize the magnitude\nTRANSITION: \"Here\x27s the architecture...\" " }

/-- Slide 4: architecture (screenshot slide). -/
def slide_4_architecture (cfg : Config) (pal : Palette) (env : Env) : Slide :=
  let screenshot :=
    find_screenshot env.files ((SCREENSHOT_SLIDES 4).getD "") (some 4)
  let shot := add_screenshot env screenshot 0.75 2.3 11.5 4.2
  { shapes :=
      [add_context_label "Architecture" none pal,
       add_action_title (cfg.architecture_title.getD "How your solution works")
         1.0 pal]
      ++ shot.1
      ++ (if shot.2 then []
          else [add_screenshot_placeholder 0.75 2.3 11.5 4.2
                  "Architecture diagram (4.png)" pal]),
    notes := "TIMING: 45 seconds\nSAY: Walk through the architecture\nSHOW: Point to each stage" }

/-- Slide 5: demo, happy path (screenshot slide). -/
def slide_5_demo_good (cfg : Config) (pal : Palette) (env : Env) : Slide :=
  let screenshot :=
    find_screenshot env.files ((SCREENSHOT_SLIDES 5).getD "") (some 5)
  let shot := add_screenshot env screenshot 0.75 2.3 11.5 4.2
  { shapes :=
      [add_context_label "Live Demo" (some pal.accent) pal,
       add_action_title (cfg.demo_good_title.getD "Show the happy path")
         1.0 pal]
      ++ shot.1
      ++ (if shot.2 then []
          else [add_screenshot_placeholder 0.75 2.3 11.5 4.2
                  "Demo screenshot - happy path (5.png)" pal]),
    notes := "TIMING: 60 seconds\nSAY: \"Watch what happens when...\"\nSHOW: Run the demo" }

/-- Slide 6: demo, edge case (screenshot slide). -/
def slide_6_demo_edge (cfg : Config) (pal : Palette) (env : Env) : Slide :=
  let screenshot :=
    find_screenshot env.files ((SCREENSHOT_SLIDES 6).getD "") (some 6)
  let shot := add_screenshot env screenshot 0.75 2.3 11.5 4.2
  { shapes :=
      [add_context_label "Edge Case" (some pal.danger) pal,
       add_action_title
         (cfg.demo_edge_title.getD "Show how you handle edge cases") 1.0 pal]
      ++ shot.1
      ++ (if shot.2 then []
          else [add_screenshot_placeholder 0.75 2.3 11.5 4.2
                  "Demo screenshot - edge case (6.png)" pal]),
    notes := "TIMING: 60 seconds\nSAY: \"This is the key differentiator\"\nSHOW: Edge case handling" }

/-- Slide 7: results / proof (screenshot slide; on a missing screenshot it
falls back to metric cards, not to a placeholder). -/
def slide_7_proof (cfg : Config) (pal : Palette) (env : Env) : Slide :=
  let screenshot :=
    find_screenshot env.files ((SCREENSHOT_SLIDES 7).getD "") (some 7)
  let shot := add_screenshot env screenshot 0.75 2.3 11.5 3.5
  { shapes :=
      [add_context_label "The Proof" (some pal.accent) pal,
       add_action_title (cfg.proof_title.getD "Metrics and evidence") 1.0 pal]
      ++ shot.1
      ++ (if shot.2 then []
          else metricCards pal
            (cfg.metrics.getD
              [("95%", "Metric 1"), ("2.5x", "Metric 2"),
               ("100%", "Metric 3")]) 0.75),
    notes := "TIMING: 30 seconds\nSAY: Back up your claims with numbers" }

/-- Slide 8: audit trail (screenshot slide). -/
def slide_8_audit (cfg : Config) (pal : Palette) (env : Env) : Slide :=
  let screenshot :=
    find_screenshot env.files ((SCREENSHOT_SLIDES 8).getD "") (some 8)
  let shot := add_screenshot env screenshot 0.75 2.3 11.5 4.2
  { shapes :=
      [add_context_label "Traceability" (some pal.purple) pal,
       add_action_title (cfg.audit_title.getD "Full audit trail and logging")
         1.0 pal]
      ++ shot.1
      ++ (if shot.2 then []
          else [add_screenshot_placeholder 0.75 2.3 11.5 4.2
                  "Audit trail view (8.png)" pal]),
    notes := "TIMING: 30 seconds\nSAY: Complete traceability" }

/-- Slide 9: roadmap and honest gaps. -/
def slide_9_roadmap (cfg : Config) (pal : Palette) : Slide :=
  { shapes :=
      [add_context_label "Roadmap" none pal,
       add_action_title (cfg.roadmap_title.getD "What\x27s done and what\x27s next")
         1.0 pal,
       rrect 0.75 2.5 5.3 4 (some pal.white) (some pal.border) none false [],
       tbox 1 2.7 4.8 0.5 [para "Progress" 16 true pal.primary]]
      ++ roadmapRow pal
          (cfg.roadmap_items.getD
            [("✓", "Completed item 1", "Details", pal.success),
             ("2", "Next milestone", "Details", pal.primary),
             ("3", "Future goal", "Details", pal.primary)]) 3.3
      ++ [rrect 6.4 2.5 5.3 4 (some pal.white) (some pal.border) none false [],
          tbox 6.65 2.7 4.8 0.5 [para "Honest Gaps" 16 true pal.warning]]
      ++ gapsRow pal
          (cfg.gaps.getD
            [("1", "Known limitation", "Context"),
             ("2", "Future work", "Context"),
             ("3", "Open question", "Context")]) 3.3,
    notes := "TIMING: 30 seconds\nSAY: Be honest about gaps\nSHOW: Point to roadmap" }

/-- Slide 10: the ask. -/
def slide_10_ask (cfg : Config) (pal : Palette) : Slide :=
  { shapes :=
      [add_context_label "The Ask" none pal,
       add_action_title (cfg.ask_title.getD "What I need from you") 1.0 pal,
       rrect 0.75 2.3 5.3 1.5 (some pal.white) (some pal.border) none false [],
       tbox 1 2.5 4.8 1.2
         [para (cfg.ask_1_title.getD "Feedback Request") 14 true pal.primary,
          para (cfg.ask_1_desc.getD "What specific feedback do you want?") 12
            false pal.muted],
       rrect 6.4 2.3 5.3 1.5 (some pal.white) (some pal.border) none false [],
       tbox 6.65 2.5 4.8 1.2
         [para (cfg.ask_2_title.getD "Priority Question") 14 true pal.warning,
          para (cfg.ask_2_desc.getD "What decision do you need help with?") 12
            false pal.muted],
       tbox 0.75 5.5 11.5 0.8 [para "Thank You" 36 true pal.primary],
       tbox 0.75 6.2 11.5 0.4 [para "Questions?" 16 false pal.muted]],
    notes := "TIMING: 30 seconds\nSAY: Be specific about what you need\nASK: Open it up for questions" }

/-- The `generate_presentation` entry point: resolve the palette with a
fallback to the default one, replace a missing configuration by the empty
mapping, and build the fixed sequence of ten slides.  The
screenshots-found report (`print` calls) and the `prs.save` call are not
modelled. -/
def generate_presentation (config : Option Config) (env : Env)
    (palette : String) : List Slide :=
  let pal := (PALETTES palette).getD defaultPalette
  let cfg := config.getD emptyConfig
  [slide_1_title cfg pal,
   slide_2_problem_iceberg cfg pal,
   slide_3_scale cfg pal,
   slide_4_architecture cfg pal env,
   slide_5_demo_good cfg pal env,
   slide_6_demo_edge cfg pal env,
   slide_7_proof cfg pal env,
   slide_8_audit cfg pal env,
   slide_9_roadmap cfg pal,
   slide_10_ask cfg pal]

/-! ### Helper lemmas -/

/-- A concrete environment with no screenshots directory. -/
def envNone : Env := ⟨none, fun _ => (0, 0)⟩

/-- The below-water loop draws exactly one textbox per item. -/
theorem icebergItems_length : ∀ (l : List IceItem) (y : ℚ),
    (icebergItems l y).length = l.length := by
  intro l
  induction l with
  | nil => intro y; rfl
  | cons a rest ih => intro y; simp [icebergItems, ih]

/-- Claim C4: for every configuration mapping, screenshots directory and
palette choice, `generate_presentation` builds a deck whose number of
slides is between 8 and 10 inclusive (it always builds exactly 10). -/
theorem claim_C4 (config : Option Config) (env : Env) (palette : String) :
    (generate_presentation config env palette).length = 10 ∧
    8 ≤ (generate_presentation config env palette).length ∧
    (generate_presentation config env palette).length ≤ 10 := by
  refine ⟨rfl, ?_, ?_⟩ <;> simp [generate_presentation]

/-- Claim C5: every slide added to the deck by `generate_presentation`
has non-empty speaker notes attached. -/
theorem claim_C5 (config : Option Config) (env : Env) (palette : String) :
    ∀ s ∈ generate_presentation config env palette, s.notes ≠ "" := by
  intro s hs
  simp only [generate_presentation, List.mem_cons, List.not_mem_nil,
    or_false] at hs
  rcases hs with h | h | h | h | h | h | h | h | h | h <;> subst h <;>
    simp only [slide_1_title, slide_2_problem_iceberg, slide_3_scale,
      slide_4_architecture, slide_5_demo_good, slide_6_demo_edge,
      slide_7_proof, slide_8_audit, slide_9_roadmap, slide_10_ask] <;>
    decide

/-- Claim C5 witness: the title slide of a concrete run has non-empty
notes. -/
theorem claim_C5_witness :
    (slide_1_title emptyConfig defaultPalette).notes ≠ "" :=
  claim_C5 none envNone "default" (slide_1_title emptyConfig defaultPalette)
    (by simp [generate_presentation, PALETTES])

/-- Claim C7: `generate_presentation` is total over its configuration in
the defaulting sense: `config = None` behaves exactly like the empty
mapping, and with the empty mapping all ten slide builders complete,
producing a deck of ten slides each of which carries shapes and notes. -/
theorem claim_C7 (env : Env) (palette : String) :
    generate_presentation none env palette
      = generate_presentation (some emptyConfig) env palette ∧
    (generate_presentation none env palette).length = 10 ∧
    ∀ s ∈ generate_presentation none env palette,
      s.shapes ≠ [] ∧ s.notes ≠ "" := by
  refine ⟨rfl, rfl, ?_⟩
  intro s hs
  simp only [generate_presentation, List.mem_cons, List.not_mem_nil,
    or_false] at hs
  rcases hs with h | h | h | h | h | h | h | h | h | h <;> subst h <;>
    constructor <;>
    simp only [slide_1_title, slide_2_problem_iceberg, slide_3_scale,
      slide_4_architecture, slide_5_demo_good, slide_6_demo_edge,
      slide_7_proof, slide_8_audit, slide_9_roadmap, slide_10_ask] <;>
    first
      | decide
      | simp

/-- Claim C8: a palette name that is not a key of `PALETTES` silently
falls back to the default palette, producing the same deck as
the default palette name. -/
theorem claim_C8 (p : String) (hp : PALETTES p = none)
    (config : Option Config) (env : Env) :
    generate_presentation config env p
      = generate_presentation config env "default" := by
  unfold generate_presentation
  rw [hp]
  rfl

/-- Claim C8 witness: the unknown palette name solarized yields the
default-palette deck. -/
theorem claim_C8_witness :
    generate_presentation none envNone "solarized"
      = generate_presentation none envNone "default" :=
  claim_C8 "solarized" rfl none envNone

/-- Claim C9: the problem slide draws at most the first three
`iceberg_below_items`; entries beyond the third leave the slide
unchanged, and the number of item textboxes is `min 3` of the list
length. -/
theorem claim_C9 (cfg : Config) (pal : Palette) (items : List IceItem) :
    slide_2_problem_iceberg { cfg with iceberg_below_items := some items } pal
      = slide_2_problem_iceberg
          { cfg with iceberg_below_items := some (items.take 3) } pal ∧
    ∀ l : List IceItem, (icebergItems (l.take 3) 4.7).length = min 3 l.length := by
  constructor
  · simp [slide_2_problem_iceberg, List.take_take]
  · intro l
    simp [icebergItems_length, List.length_take]

/-- Claim C1: for an existing image with positive pixel dimensions and
positive bounds, `add_screenshot` succeeds and places a single picture
whose placed width and height preserve the aspect ratio of the image
(`w / h = pixel width / pixel height`) and fit within the bounds, at
least one of which is attained exactly. -/
theorem claim_C1 (env : Env) (f : String) (x y max_width max_height : ℚ)
    (w0 h0 : Nat)
    (hne : f ≠ "") (hex : env.pathExists f = true)
    (hsz : env.imgSize f = (w0, h0))
    (hw : 0 < w0) (hh : 0 < h0) (hmw : 0 < max_width)
    (hmh : 0 < max_height) :
    (add_screenshot env (some f) x y max_width max_height).2 = true ∧
    ∃ sh : Shape,
      (add_screenshot env (some f) x y max_width max_height).1 = [sh] ∧
      sh.kind = SKind.picture f ∧
      sh.w / sh.h = (w0 : ℚ) / (h0 : ℚ) ∧
      sh.w ≤ max_width ∧ sh.h ≤ max_height ∧
      (sh.w = max_width ∨ sh.h = max_height) := by
  have hbe : (f != "") = true := bne_iff_ne.mpr hne
  have hw2 : (0 : ℚ) < (w0 : ℚ) := by exact_mod_cast hw
  have hh2 : (0 : ℚ) < (h0 : ℚ) := by exact_mod_cast hh
  have har : (0 : ℚ) < (w0 : ℚ) / (h0 : ℚ) := div_pos hw2 hh2
  simp only [add_screenshot, optStrTruthy, Option.getD_some, hbe, hex,
    Bool.and_self, if_true, hsz]
  by_cases hc : max_width / max_height > (w0 : ℚ) / (h0 : ℚ)
  · rw [if_pos hc]
    refine ⟨trivial, _, rfl, rfl, ?_, ?_, le_refl _, Or.inr rfl⟩
    · show max_height * ((w0 : ℚ) / (h0 : ℚ)) / max_height
        = (w0 : ℚ) / (h0 : ℚ)
      exact mul_div_cancel_left₀ _ (ne_of_gt hmh)
    · show max_height * ((w0 : ℚ) / (h0 : ℚ)) ≤ max_width
      rw [mul_comm]
      exact le_of_lt ((lt_div_iff₀ hmh).mp hc)
  · rw [if_neg hc]
    have hle : max_width / max_height ≤ (w0 : ℚ) / (h0 : ℚ) := not_lt.mp hc
    refine ⟨trivial, _, rfl, rfl, ?_, le_refl _, ?_, Or.inl rfl⟩
    · show max_width / (max_width / ((w0 : ℚ) / (h0 : ℚ)))
        = (w0 : ℚ) / (h0 : ℚ)
      rw [div_div_eq_mul_div]
      exact mul_div_cancel_left₀ _ (ne_of_gt hmw)
    · show max_width / ((w0 : ℚ) / (h0 : ℚ)) ≤ max_height
      rw [div_le_iff₀ har]
      have h2 := (div_le_iff₀ hmh).mp hle
      linarith [h2]

/-- A concrete environment holding one 4 × 3 image, for the C1 witness. -/
def envPic : Env := ⟨some ["a.png"], fun _ => (4, 3)⟩

/-- Claim C1 witness: fitting a 4 × 3 image into the default
`11.5 × 4.2` box. -/
theorem claim_C1_witness :
    (add_screenshot envPic (some "a.png") 0.75 2.3 11.5 4.2).2 = true ∧
    ∃ sh : Shape,
      (add_screenshot envPic (some "a.png") 0.75 2.3 11.5 4.2).1 = [sh] ∧
      sh.kind = SKind.picture "a.png" ∧
      sh.w / sh.h = ((4 : Nat) : ℚ) / ((3 : Nat) : ℚ) ∧
      sh.w ≤ 11.5 ∧ sh.h ≤ 4.2 ∧
      (sh.w = 11.5 ∨ sh.h = 4.2) :=
  claim_C1 envPic "a.png" 0.75 2.3 11.5 4.2 4 3 (by decide) (by decide) rfl
    (by decide) (by decide) (by norm_num) (by norm_num)

/-- Whether a shape is a rounded rectangle (the body of a card). -/
def isRRect (s : Shape) : Bool :=
  match s.kind with
  | SKind.roundedRect => true
  | _ => false

/-- The rounded-rectangle shapes of a list, in creation order. -/
def rectsOf (l : List Shape) : List Shape := l.filter isRRect

/-- Head case of `List.get` on a cons cell. -/
theorem get_zero_cons {α : Type} (a : α) (l : List α)
    (h : 0 < (a :: l).length) : (a :: l).get ⟨0, h⟩ = a := rfl

/-- Card geometry of the pillar row: one card rectangle per pillar, the
i-th at `x + 3.9 * i` with width `3.6`. -/
theorem pillarRow_rects (pal : Palette) :
    ∀ (ps : List (String × String)) (x : ℚ),
    (rectsOf (pillarRow pal ps x)).length = ps.length ∧
    ∀ i (h : i < (rectsOf (pillarRow pal ps x)).length),
      ((rectsOf (pillarRow pal ps x)).get ⟨i, h⟩).x = x + 3.9 * i ∧
      ((rectsOf (pillarRow pal ps x)).get ⟨i, h⟩).w = 3.6 := by
  intro ps
  induction ps with
  | nil =>
    intro x
    refine ⟨rfl, ?_⟩
    intro i h
    simp [pillarRow, rectsOf] at h
  | cons p rest ih =>
    intro x
    obtain ⟨t, d⟩ := p
    have hstep : rectsOf (pillarRow pal ((t, d) :: rest) x)
        = rrect x 4.5 3.6 1.8 (some pal.white) (some pal.border) (some 1)
            false []
          :: rectsOf (pillarRow pal rest (x + 3.9)) := by
      simp [pillarRow, rectsOf, add_card, List.filter_append, isRRect,
        rrect, tbox]
    rw [hstep]
    refine ⟨by simp [(ih (x + 3.9)).1], ?_⟩
    intro i h
    match i with
    | 0 =>
      refine ⟨?_, rfl⟩
      show x = x + 3.9 * ((0 : ℕ) : ℚ)
      simp
    | Nat.succ j =>
      have hlen : j < (rectsOf (pillarRow pal rest (x + 3.9))).length := by
        simpa using h
      have hj := (ih (x + 3.9)).2 j hlen
      rw [List.get_cons_succ]
      refine ⟨?_, hj.2⟩
      rw [hj.1]
      push_cast
      ring

/-- Card geometry of the stat row: one card rectangle per stat, the i-th
at `x + (3.7 + 0.3) * i` with width `3.7`. -/
theorem statsRow_rects (pal : Palette) :
    ∀ (ss : List (String × String × RGB × Bool)) (x : ℚ),
    (rectsOf (statsRow pal ss x)).length = ss.length ∧
    ∀ i (h : i < (rectsOf (statsRow pal ss x)).length),
      ((rectsOf (statsRow pal ss x)).get ⟨i, h⟩).x = x + (3.7 + 0.3) * i ∧
      ((rectsOf (statsRow pal ss x)).get ⟨i, h⟩).w = 3.7 := by
  intro ss
  induction ss with
  | nil =>
    intro x
    refine ⟨rfl, ?_⟩
    intro i h
    simp [statsRow, rectsOf] at h
  | cons p rest ih =>
    intro x
    obtain ⟨v, l, c, fl⟩ := p
    have hstep : rectsOf (statsRow pal ((v, l, c, fl) :: rest) x)
        = (if fl then rrect x 2.8 3.7 2.2 (some c) none none false []
           else rrect x 2.8 3.7 2.2 (some pal.white) (some pal.border)
             (some 2) false [])
          :: rectsOf (statsRow pal rest (x + (3.7 + 0.3))) := by
      cases fl <;>
        simp [statsRow, rectsOf, isRRect, rrect, tbox]
    rw [hstep]
    have hhead :
        (if fl then rrect x 2.8 3.7 2.2 (some c) none none false []
         else rrect x 2.8 3.7 2.2 (some pal.white) (some pal.border)
           (some 2) false []).x = x ∧
        (if fl then rrect x 2.8 3.7 2.2 (some c) none none false []
         else rrect x 2.8 3.7 2.2 (some pal.white) (some pal.border)
           (some 2) false []).w = 3.7 := by
      cases fl <;> exact ⟨rfl, rfl⟩
    refine ⟨by simp [(ih (x + (3.7 + 0.3))).1], ?_⟩
    intro i h
    match i with
    | 0 =>
      rw [get_zero_cons]
      refine ⟨?_, hhead.2⟩
      rw [hhead.1]
      simp
    | Nat.succ j =>
      have hlen : j < (rectsOf (statsRow pal rest (x + (3.7 + 0.3)))).length := by
        simpa using h
      have hj := (ih (x + (3.7 + 0.3))).2 j hlen
      rw [List.get_cons_succ]
      refine ⟨?_, hj.2⟩
      rw [hj.1]
      push_cast
      ring

/-- Claim C6: card grids advance coordinates sequentially: the i-th
pillar card of the title slide sits at `x = 0.75 + 3.9 * i`, the i-th
stat card of the scale slide at `x = 0.75 + (card_width + gap) * i =
0.75 + (3.7 + 0.3) * i`; the step exceeds the card width, so consecutive
cards have strictly increasing x positions and do not overlap
horizontally. -/
theorem claim_C6 (pal : Palette) (ps : List (String × String))
    (ss : List (String × String × RGB × Bool)) (i : Nat) :
    ((rectsOf (pillarRow pal ps 0.75)).length = ps.length ∧
     (∀ h : i < (rectsOf (pillarRow pal ps 0.75)).length,
        ((rectsOf (pillarRow pal ps 0.75)).get ⟨i, h⟩).x = 0.75 + 3.9 * i) ∧
     (∀ h : i + 1 < (rectsOf (pillarRow pal ps 0.75)).length,
        ((rectsOf (pillarRow pal ps 0.75)).get ⟨i, by omega⟩).x
          < ((rectsOf (pillarRow pal ps 0.75)).get ⟨i + 1, h⟩).x ∧
        ((rectsOf (pillarRow pal ps 0.75)).get ⟨i, by omega⟩).x
            + ((rectsOf (pillarRow pal ps 0.75)).get ⟨i, by omega⟩).w
          < ((rectsOf (pillarRow pal ps 0.75)).get ⟨i + 1, h⟩).x)) ∧
    ((rectsOf (statsRow pal ss 0.75)).length = ss.length ∧
     (∀ h : i < (rectsOf (statsRow pal ss 0.75)).length,
        ((rectsOf (statsRow pal ss 0.75)).get ⟨i, h⟩).x
          = 0.75 + (3.7 + 0.3) * i) ∧
     (∀ h : i + 1 < (rectsOf (statsRow pal ss 0.75)).length,
        ((rectsOf (statsRow pal ss 0.75)).get ⟨i, by omega⟩).x
          < ((rectsOf (statsRow pal ss 0.75)).get ⟨i + 1, h⟩).x ∧
        ((rectsOf (statsRow pal ss 0.75)).get ⟨i, by omega⟩).x
            + ((rectsOf (statsRow pal ss 0.75)).get ⟨i, by omega⟩).w
          < ((rectsOf (statsRow pal ss 0.75)).get ⟨i + 1, h⟩).x)) := by
  obtain ⟨hpl, hp⟩ := pillarRow_rects pal ps 0.75
  obtain ⟨hsl, hs⟩ := statsRow_rects pal ss 0.75
  refine ⟨⟨hpl, fun h => (hp i h).1, ?_⟩, hsl, fun h => (hs i h).1, ?_⟩
  · intro h
    have h1 := hp i (by omega)
    have h2 := hp (i + 1) h
    rw [h1.1, h1.2, h2.1]
    constructor <;> (push_cast; linarith)
  · intro h
    have h1 := hs i (by omega)
    have h2 := hs (i + 1) h
    rw [h1.1, h1.2, h2.1]
    constructor <;> (push_cast; linarith)

/-- Claim C6 witness: with two pillars, the first card ends strictly left
of where the second begins. -/
theorem claim_C6_witness :
    ((rectsOf (pillarRow defaultPalette
        [("Feature 1", "d1"), ("Feature 2", "d2")] 0.75)).get
          ⟨0, by decide⟩).x
        + ((rectsOf (pillarRow defaultPalette
        [("Feature 1", "d1"), ("Feature 2", "d2")] 0.75)).get
          ⟨0, by decide⟩).w
      < ((rectsOf (pillarRow defaultPalette
        [("Feature 1", "d1"), ("Feature 2", "d2")] 0.75)).get
          ⟨1, by decide⟩).x :=
  ((claim_C6 defaultPalette [("Feature 1", "d1"), ("Feature 2", "d2")] [] 0).1.2.2
    (by decide)).2

/-- Placeholder test: `add_screenshot_placeholder` is the only shape
constructor in the script that sets a dashed line style, so a dashed
shape is exactly a screenshot placeholder. -/
def isPlaceholderShape (s : Shape) : Bool := s.dashed

/-- The metric-card fallback of slide 7 contains no placeholder shape. -/
theorem metricCards_countP_dashed (pal : Palette) :
    ∀ (ms : List (String × String)) (x : ℚ),
    (metricCards pal ms x).countP isPlaceholderShape = 0 := by
  intro ms
  induction ms with
  | nil => intro x; rfl
  | cons m rest ih =>
    intro x
    obtain ⟨v, l⟩ := m
    simp [metricCards, add_card, List.countP_append, List.countP_cons, ih,
      isPlaceholderShape, rrect, tbox]

/-- The metric-card fallback draws four shapes per metric. -/
theorem metricCards_length (pal : Palette) :
    ∀ (ms : List (String × String)) (x : ℚ),
    (metricCards pal ms x).length = 4 * ms.length := by
  intro ms
  induction ms with
  | nil => intro x; rfl
  | cons m rest ih =>
    intro x
    obtain ⟨v, l⟩ := m
    simp [metricCards, add_card, ih]
    ring

/-- Claim C3 counterexample: with no screenshots directory, the proof
slide (slide 7) adds no placeholder shape at all — its 14 shapes are the
context label, the action title and the metric-card fallback, none of
them dashed — refuting the claim that every screenshot slide (4 through
8) falls back to a placeholder shape. -/
theorem claim_C3_counterexample :
    (slide_7_proof emptyConfig defaultPalette envNone).shapes.countP
        isPlaceholderShape = 0 ∧
    (slide_7_proof emptyConfig defaultPalette envNone).shapes.length = 14 := by
  constructor <;> rfl

/-- Claim C3 (amended): when no screenshot file is found, slides 4, 5, 6
and 8 add exactly one placeholder shape in place of the image, while
slide 7 adds none and instead renders the metric-card fallback (two
header shapes plus four shapes per configured metric). -/
theorem claim_C3_amended (cfg : Config) (pal : Palette) (env : Env) :
    (find_screenshot env.files ((SCREENSHOT_SLIDES 4).getD "") (some 4) = none →
      (slide_4_architecture cfg pal env).shapes.countP isPlaceholderShape = 1) ∧
    (find_screenshot env.files ((SCREENSHOT_SLIDES 5).getD "") (some 5) = none →
      (slide_5_demo_good cfg pal env).shapes.countP isPlaceholderShape = 1) ∧
    (find_screenshot env.files ((SCREENSHOT_SLIDES 6).getD "") (some 6) = none →
      (slide_6_demo_edge cfg pal env).shapes.countP isPlaceholderShape = 1) ∧
    (find_screenshot env.files ((SCREENSHOT_SLIDES 8).getD "") (some 8) = none →
      (slide_8_audit cfg pal env).shapes.countP isPlaceholderShape = 1) ∧
    (find_screenshot env.files ((SCREENSHOT_SLIDES 7).getD "") (some 7) = none →
      (slide_7_proof cfg pal env).shapes.countP isPlaceholderShape = 0 ∧
      (slide_7_proof cfg pal env).shapes.length
        = 2 + 4 * (cfg.metrics.getD
            [("95%", "Metric 1"), ("2.5x", "Metric 2"),
             ("100%", "Metric 3")]).length) := by
  refine ⟨?_, ?_, ?_, ?_, ?_⟩ <;> intro h <;>
    simp [slide_4_architecture, slide_5_demo_good, slide_6_demo_edge,
      slide_8_audit, slide_7_proof, h, add_screenshot, optStrTruthy,
      add_context_label, add_action_title, add_screenshot_placeholder,
      isPlaceholderShape, tbox, rrect, List.countP_cons, List.countP_append,
      metricCards_countP_dashed, metricCards_length] <;>
    omega

/-- Claim C3 amended witness: slide 4 of a run without screenshots shows
exactly one placeholder. -/
theorem claim_C3_witness :
    (slide_4_architecture emptyConfig defaultPalette envNone).shapes.countP
        isPlaceholderShape = 1 :=
  (claim_C3_amended emptyConfig defaultPalette envNone).1 rfl

/-! ### First-match structure of `find_screenshot` (claim C2)

`find_screenshot` is a sequence of attempts tried in order, each attempt
being either a glob pattern or an exact file name.  `Att` names one
attempt, `Att.run` is what the script does for it, and `Att.fits` is the
predicate "this file would satisfy this attempt". -/

/-- One naming-convention attempt: a number glob `*mid*ext` (tried in
lower and upper case together) or an exact name `nm ++ ext`. -/
inductive Att where
  | glob (mid ext : String)
  | exactFile (nm ext : String)
deriving DecidableEq

/-- Execute one attempt against the directory listing. -/
def Att.run (d : List String) : Att → Option String
  | Att.glob m e => globAttempt d m e
  | Att.exactFile nm e => exactAttempt d nm e

/-- Whether file `f` satisfies an attempt. -/
def Att.fits (f : String) : Att → Bool
  | Att.glob m e => globMatch m e f || globMatch m (strUpper e) f
  | Att.exactFile nm e => f == nm ++ e

/-- All attempts of `find_screenshot`, in the order the script tries
them: the glob phase (for a truthy slide number) and then the exact-name
phase. -/
def attList (slide_name : String) (slide_num : Option Nat) : List Att :=
  (if numTruthy slide_num then
    [pad2 (slide_num.getD 0), toString (slide_num.getD 0)].flatMap
      (fun p => exts3.map (fun e => Att.glob p e))
   else [])
  ++ (possible_names slide_name slide_num).flatMap
      (fun nm => exts6.map (fun e => Att.exactFile nm e))

/-- `firstSome` over an appended list tries the first part first. -/
theorem firstSome_append {α β : Type} (f : α → Option β) (l₁ l₂ : List α) :
    firstSome f (l₁ ++ l₂)
      = match firstSome f l₁ with
        | some b => some b
        | none => firstSome f l₂ := by
  induction l₁ with
  | nil => rfl
  | cons a as ih =>
    simp only [List.cons_append, firstSome]
    cases f a <;> simp [ih]

/-- `firstSome` over a mapped list composes the functions. -/
theorem firstSome_map {α β γ : Type} (f : β → Option γ) (g : α → β) :
    ∀ l : List α, firstSome f (l.map g) = firstSome (fun a => f (g a)) l := by
  intro l
  induction l with
  | nil => rfl
  | cons a as ih =>
    simp only [List.map_cons, firstSome]
    cases f (g a) <;> simp [ih]

/-- `firstSome` over a flat-mapped list is a nested `firstSome`. -/
theorem firstSome_flatMap {α β γ : Type} (f : β → Option γ) (g : α → List β) :
    ∀ l : List α,
    firstSome f (l.flatMap g) = firstSome (fun a => firstSome f (g a)) l := by
  intro l
  induction l with
  | nil => rfl
  | cons a as ih =>
    rw [List.flatMap_cons, firstSome_append]
    simp only [firstSome]
    cases firstSome f (g a) <;> simp [ih]

/-- `firstSome` misses exactly when every attempt misses. -/
theorem firstSome_eq_none_iff {α β : Type} (f : α → Option β) :
    ∀ l : List α, (firstSome f l = none ↔ ∀ a ∈ l, f a = none) := by
  intro l
  induction l with
  | nil => simp [firstSome]
  | cons a as ih =>
    cases hfa : f a with
    | some b =>
      simp only [firstSome, hfa, List.mem_cons]
      constructor
      · intro hc
        simp at hc
      · intro hall
        exact absurd (hall a (Or.inl rfl)) (by simp [hfa])
    | none =>
      simp only [firstSome, hfa, List.mem_cons]
      constructor
      · intro hc f2 hf2
        rcases hf2 with h | h
        · subst h; exact hfa
        · exact (ih.mp hc) f2 h
      · intro hall
        exact ih.mpr (fun x hx => hall x (Or.inr hx))

/-- A `firstSome` hit comes from the first attempt that yields a result:
all earlier attempts yield `none`. -/
theorem firstSome_eq_some_first {α β : Type} (f : α → Option β) :
    ∀ (l : List α) (b : β), firstSome f l = some b →
      ∃ k, ∃ hk : k < l.length, f (l.get ⟨k, hk⟩) = some b ∧
        ∀ j (hj : j < l.length), j < k → f (l.get ⟨j, hj⟩) = none := by
  intro l
  induction l with
  | nil =>
    intro b hb
    simp [firstSome] at hb
  | cons a as ih =>
    intro b hb
    cases hfa : f a with
    | some c =>
      simp only [firstSome, hfa] at hb
      refine ⟨0, by simp, ?_, ?_⟩
      · rw [get_zero_cons, hfa]
        exact hb
      · intro j hj hjk
        exact absurd hjk (Nat.not_lt_zero j)
    | none =>
      simp only [firstSome, hfa] at hb
      obtain ⟨k, hk, hfk, hprev⟩ := ih b hb
      refine ⟨k + 1, by simpa using Nat.succ_lt_succ hk, ?_, ?_⟩
      · rw [List.get_cons_succ]
        exact hfk
      · intro j hj hjk
        match j, hj with
        | 0, hj =>
          rw [get_zero_cons]
          exact hfa
        | Nat.succ m, hj =>
          rw [List.get_cons_succ]
          exact hprev m (by simpa using hj) (by omega)

/-- Inserting adds one element. -/
theorem length_insertSorted (a : String) :
    ∀ l : List String, (insertSorted a l).length = l.length + 1 := by
  intro l
  induction l with
  | nil => rfl
  | cons b bs ih =>
    simp only [insertSorted]
    by_cases hc : strLeB a b = true
    · rw [if_pos hc]
      rfl
    · rw [if_neg hc]
      simp [ih]

/-- Membership is preserved by insertion. -/
theorem mem_insertSorted (a x : String) :
    ∀ l : List String, (x ∈ insertSorted a l ↔ x = a ∨ x ∈ l) := by
  intro l
  induction l with
  | nil => simp [insertSorted]
  | cons b bs ih =>
    simp only [insertSorted]
    by_cases hc : strLeB a b = true
    · rw [if_pos hc]
      simp
    · rw [if_neg hc]
      simp only [List.mem_cons, ih]
      tauto

/-- Sorting preserves length. -/
theorem length_sortStrs : ∀ l : List String, (sortStrs l).length = l.length := by
  intro l
  induction l with
  | nil => rfl
  | cons a as ih => simp [sortStrs, length_insertSorted, ih]

/-- Sorting preserves membership. -/
theorem mem_sortStrs (x : String) :
    ∀ l : List String, (x ∈ sortStrs l ↔ x ∈ l) := by
  intro l
  induction l with
  | nil => simp [sortStrs]
  | cons a as ih => simp [sortStrs, mem_insertSorted, ih]

/-- A glob attempt misses exactly when no file in the directory matches
the pattern in either case. -/
theorem globAttempt_eq_none_iff (d : List String) (m e : String) :
    globAttempt d m e = none ↔
      ∀ f ∈ d, (globMatch m e f || globMatch m (strUpper e) f) = false := by
  unfold globAttempt
  rcases hms : d.filter (fun f => globMatch m e f)
      ++ d.filter (fun f => globMatch m (strUpper e) f) with _ | ⟨a, rest⟩
  · obtain ⟨h1, h2⟩ := List.append_eq_nil.mp hms
    constructor
    · intro _ f hf
      have g1 := List.filter_eq_nil_iff.mp h1 f hf
      have g2 := List.filter_eq_nil_iff.mp h2 f hf
      simp only [Bool.or_eq_false_iff]
      exact ⟨by simpa using g1, by simpa using g2⟩
    · intro _
      rfl
  · constructor
    · intro hcontra
      exfalso
      simp only [List.isEmpty_cons, Bool.false_eq_true, if_false] at hcontra
      have hlen : (sortStrs (a :: rest)).length = rest.length + 1 := by
        simpa using length_sortStrs (a :: rest)
      cases hsort : sortStrs (a :: rest) with
      | nil => rw [hsort] at hlen; simp at hlen
      | cons x xs =>
        rw [hsort] at hcontra
        simp at hcontra
    · intro hall
      exfalso
      have hmem : a ∈ d.filter (fun f => globMatch m e f)
          ++ d.filter (fun f => globMatch m (strUpper e) f) := by
        rw [hms]
        exact List.mem_cons_self a rest
      rcases List.mem_append.mp hmem with h1 | h2
      · obtain ⟨hd, hb⟩ := List.mem_filter.mp h1
        have := hall a hd
        simp [hb] at this
      · obtain ⟨hd, hb⟩ := List.mem_filter.mp h2
        have := hall a hd
        simp [hb] at this

/-- A glob attempt hit is a file of the directory matching the pattern in
lower or upper case. -/
theorem globAttempt_eq_some (d : List String) (m e f : String) :
    globAttempt d m e = some f →
      f ∈ d ∧ (globMatch m e f || globMatch m (strUpper e) f) = true := by
  unfold globAttempt
  intro hsome
  rcases hms : d.filter (fun x => globMatch m e x)
      ++ d.filter (fun x => globMatch m (strUpper e) x) with _ | ⟨a, rest⟩
  · rw [hms] at hsome
    simp at hsome
  · rw [hms] at hsome
    simp only [List.isEmpty_cons, Bool.false_eq_true, if_false] at hsome
    have hf : f ∈ sortStrs (a :: rest) := by
      cases hsort : sortStrs (a :: rest) with
      | nil =>
        rw [hsort] at hsome
        simp at hsome
      | cons x xs =>
        rw [hsort] at hsome
        simp only [List.head?_cons, Option.some.injEq] at hsome
        rw [hsome]
        exact List.mem_cons_self f xs
    have hf2 : f ∈ a :: rest := (mem_sortStrs f (a :: rest)).mp hf
    have hf3 : f ∈ d.filter (fun x => globMatch m e x)
        ++ d.filter (fun x => globMatch m (strUpper e) x) := by
      rw [hms]
      exact hf2
    rcases List.mem_append.mp hf3 with h1 | h2
    · obtain ⟨hd, hb⟩ := List.mem_filter.mp h1
      exact ⟨hd, by simp [hb]⟩
    · obtain ⟨hd, hb⟩ := List.mem_filter.mp h2
      exact ⟨hd, by simp [hb]⟩

/-- An exact-name attempt misses exactly when the file is not in the
directory. -/
theorem exactAttempt_eq_none_iff (d : List String) (nm e : String) :
    exactAttempt d nm e = none ↔ ∀ f ∈ d, (f == nm ++ e) = false := by
  unfold exactAttempt
  by_cases hc : d.contains (nm ++ e) = true
  · rw [if_pos hc]
    constructor
    · intro hcontra
      simp at hcontra
    · intro hall
      exfalso
      have hmem : (nm ++ e) ∈ d := List.elem_iff.mp hc
      have := hall (nm ++ e) hmem
      simp at this
  · rw [if_neg hc]
    constructor
    · intro _ f hf
      by_contra hb
      have hbt : f = nm ++ e := by simpa using hb
      subst hbt
      exact hc (List.elem_iff.mpr hf)
    · intro _
      rfl

/-- An exact-name attempt hit is the exact file, present in the
directory. -/
theorem exactAttempt_eq_some (d : List String) (nm e f : String) :
    exactAttempt d nm e = some f → f ∈ d ∧ (f == nm ++ e) = true := by
  unfold exactAttempt
  intro hsome
  by_cases hc : d.contains (nm ++ e) = true
  · rw [if_pos hc] at hsome
    have hf : nm ++ e = f := by simpa using hsome
    subst hf
    exact ⟨List.elem_iff.mp hc, by simp⟩
  · rw [if_neg hc] at hsome
    simp at hsome

/-- An attempt misses exactly when no file of the directory fits it. -/
theorem Att.run_eq_none_iff (d : List String) (a : Att) :
    a.run d = none ↔ ∀ f ∈ d, a.fits f = false := by
  cases a with
  | glob m e => simpa [Att.run, Att.fits] using globAttempt_eq_none_iff d m e
  | exactFile nm e =>
    simpa [Att.run, Att.fits] using exactAttempt_eq_none_iff d nm e

/-- An attempt hit is a file of the directory fitting the attempt. -/
theorem Att.run_eq_some (d : List String) (a : Att) (f : String) :
    a.run d = some f → f ∈ d ∧ a.fits f = true := by
  cases a with
  | glob m e => simpa [Att.run, Att.fits] using globAttempt_eq_some d m e f
  | exactFile nm e =>
    simpa [Att.run, Att.fits] using exactAttempt_eq_some d nm e f

/-- `find_screenshot` on an existing directory is exactly the first hit
over the attempt list. -/
theorem find_screenshot_eq_attList (files : List String)
    (slide_name : String) (slide_num : Option Nat) :
    find_screenshot (some files) slide_name slide_num
      = firstSome (Att.run files) (attList slide_name slide_num) := by
  unfold find_screenshot attList
  rw [firstSome_append]
  have hexact : firstSome (fun ne => exactAttempt files ne.1 ne.2)
      ((possible_names slide_name slide_num).flatMap
        (fun nm => exts6.map (fun e => (nm, e))))
      = firstSome (Att.run files)
          ((possible_names slide_name slide_num).flatMap
            (fun nm => exts6.map (fun e => Att.exactFile nm e))) := by
    simp only [firstSome_flatMap, firstSome_map, Att.run]
  cases hT : numTruthy slide_num
  · simp only [Bool.false_eq_true, if_false, firstSome]
    exact hexact
  · simp only [if_true]
    have hglob : firstSome (fun pe => globAttempt files pe.1 pe.2)
        ([pad2 (slide_num.getD 0), toString (slide_num.getD 0)].flatMap
          (fun p => exts3.map (fun e => (p, e))))
        = firstSome (Att.run files)
            ([pad2 (slide_num.getD 0), toString (slide_num.getD 0)].flatMap
              (fun p => exts3.map (fun e => Att.glob p e))) := by
      simp only [firstSome_flatMap, firstSome_map, Att.run]
    rw [hglob]
    cases firstSome (Att.run files)
        ([pad2 (slide_num.getD 0), toString (slide_num.getD 0)].flatMap
          (fun p => exts3.map (fun e => Att.glob p e))) with
    | some r => rfl
    | none => exact hexact

/-- Claim C2: for every screenshots directory listing and slide number,
`find_screenshot` tries the naming conventions in order — the zero-padded
number glob, the plain number glob (each against `.png`, `.jpg`, `.jpeg`
in lower and upper case), then the exact names `slide_name`, `slide_NN`,
`Slide_NN`, `NN`, `N` crossed with the six extensions — and returns a
file of the first convention that has a match (`None` exactly when no
file matches any convention): the attempt list is literally that order,
a `None` result means no file fits any attempt, and a hit is a file of
the directory fitting some attempt while no file fits any earlier
attempt. -/
theorem claim_C2 (files : List String) (slide_name : String) (n : Nat)
    (hn : 0 < n) :
    attList slide_name (some n) =
      [Att.glob (pad2 n) ".png", Att.glob (pad2 n) ".jpg",
       Att.glob (pad2 n) ".jpeg", Att.glob (toString n) ".png",
       Att.glob (toString n) ".jpg", Att.glob (toString n) ".jpeg",
       Att.exactFile slide_name ".png", Att.exactFile slide_name ".jpg",
       Att.exactFile slide_name ".jpeg", Att.exactFile slide_name ".PNG",
       Att.exactFile slide_name ".JPG", Att.exactFile slide_name ".JPEG",
       Att.exactFile ("slide_" ++ pad2 n) ".png",
       Att.exactFile ("slide_" ++ pad2 n) ".jpg",
       Att.exactFile ("slide_" ++ pad2 n) ".jpeg",
       Att.exactFile ("slide_" ++ pad2 n) ".PNG",
       Att.exactFile ("slide_" ++ pad2 n) ".JPG",
       Att.exactFile ("slide_" ++ pad2 n) ".JPEG",
       Att.exactFile ("Slide_" ++ pad2 n) ".png",
       Att.exactFile ("Slide_" ++ pad2 n) ".jpg",
       Att.exactFile ("Slide_" ++ pad2 n) ".jpeg",
       Att.exactFile ("Slide_" ++ pad2 n) ".PNG",
       Att.exactFile ("Slide_" ++ pad2 n) ".JPG",
       Att.exactFile ("Slide_" ++ pad2 n) ".JPEG",
       Att.exactFile (pad2 n) ".png", Att.exactFile (pad2 n) ".jpg",
       Att.exactFile (pad2 n) ".jpeg", Att.exactFile (pad2 n) ".PNG",
       Att.exactFile (pad2 n) ".JPG", Att.exactFile (pad2 n) ".JPEG",
       Att.exactFile (toString n) ".png", Att.exactFile (toString n) ".jpg",
       Att.exactFile (toString n) ".jpeg", Att.exactFile (toString n) ".PNG",
       Att.exactFile (toString n) ".JPG",
       Att.exactFile (toString n) ".JPEG"] ∧
    (find_screenshot (some files) slide_name (some n) = none ↔
      ∀ f ∈ files, ∀ a ∈ attList slide_name (some n), a.fits f = false) ∧
    (∀ f, find_screenshot (some files) slide_name (some n) = some f →
      f ∈ files ∧
      ∃ k, ∃ hk : k < (attList slide_name (some n)).length,
        ((attList slide_name (some n)).get ⟨k, hk⟩).fits f = true ∧
        ∀ j (hj : j < (attList slide_name (some n)).length), j < k →
          ∀ g ∈ files,
            ((attList slide_name (some n)).get ⟨j, hj⟩).fits g = false) := by
  have hnz : (n != 0) = true := bne_iff_ne.mpr (Nat.pos_iff_ne_zero.mp hn)
  refine ⟨?_, ?_, ?_⟩
  · simp [attList, possible_names, numTruthy, hnz, exts3, exts6]
  · rw [find_screenshot_eq_attList,
      firstSome_eq_none_iff (Att.run files) (attList slide_name (some n))]
    constructor
    · intro hall f hf a ha
      exact (Att.run_eq_none_iff files a).mp (hall a ha) f hf
    · intro hall a ha
      exact (Att.run_eq_none_iff files a).mpr (fun f hf => hall f hf a ha)
  · intro f hfind
    rw [find_screenshot_eq_attList] at hfind
    obtain ⟨k, hk, hfk, hprev⟩ :=
      firstSome_eq_some_first (Att.run files) _ f hfind
    have hmem := Att.run_eq_some files _ f hfk
    refine ⟨hmem.1, k, hk, hmem.2, ?_⟩
    intro j hj hjk g hg
    exact (Att.run_eq_none_iff files _).mp (hprev j hj hjk) g hg

/-- Claim C2 witness: the no-match characterisation instantiated at a
concrete directory and slide 4. -/
theorem claim_C2_witness :
    find_screenshot (some ["shot04.png"]) "slide_04_architecture"
        (some 4) = none ↔
      ∀ f ∈ ["shot04.png"],
        ∀ a ∈ attList "slide_04_architecture" (some 4), a.fits f = false :=
  (claim_C2 ["shot04.png"] "slide_04_architecture" 4 (by decide)).2.1
